import Mathlib

/-!
Verification development for the process-check collectors of this
node_exporter fork: `collector/rsyslog_process.go` and
`collector/filebeat_process.go`.

The Go code is embedded shallowly:
* external subprocess execution (`exec.Command(...).Run()`) is an
  environment parameter `RunEnv : ExecCmd → Bool` (`true` = the command
  exited successfully, i.e. `Run` returned a nil error);
* the bash pipeline run by `checkFilebeatStatus` via the go-cmd package is
  split into (a) a `CmdStatus` record mirroring `cmd.Status` (error,
  stdout lines, stderr lines) consumed by the Go function, and (b) a pure
  model `filebeatPipeline` of the shell pipeline itself, mapping a
  journalctl log window to the stdout lines the pipeline produces;
* `strconv.ParseFloat` is modelled over the decimal fragment of the Go
  floating-point literal syntax, with exact rational values;
* a Prometheus metric is a descriptor (fully-qualified name, help text,
  label names), a value kind, a rational value and positional label
  values; the channel send order of an `Update` call is the order of the
  returned metric list.
-/

/-- Command-name table of the running processes, used to model the
external pgrep tool. -/
abbrev ProcessTable := List String

/-- An external command invocation: program name and argument list,
mirroring `exec.Command(prog, args...)`. -/
structure ExecCmd where
  prog : String
  args : List String
deriving DecidableEq

/-- Environment for `exec.Command(...).Run()`: `true` means the command
ran and exited with status 0 (`Run` returned a nil error). -/
abbrev RunEnv := ExecCmd → Bool

/-- Opaque stand-in for the go-kit `log.Logger` handle each collector
stores; the collectors never call it. -/
structure Logger
deriving DecidableEq

/-- Final status of a go-cmd command, mirroring the fields of
`cmd.Status` read by `checkFilebeatStatus`: `Error`, `Stdout` (a list of
lines) and `Stderr` (a list of lines). -/
structure CmdStatus where
  error : Option String
  stdout : List String
  stderr : List String
deriving DecidableEq

/-- Splitting of a character list on a non-empty literal separator,
leftmost match first: models both awk field splitting with a literal
multi-character field separator and grep substring search. The
accumulator holds the current field reversed; the fuel is structural and
every step consumes at least one character, so fuel equal to the length
of the input (as `strSplitOn` passes) never runs out. -/
def splitGo (sep : List Char) : Nat → List Char → List Char → List (List Char)
  | 0, s, acc => [acc.reverse ++ s]
  | _ + 1, [], acc => [acc.reverse]
  | fuel + 1, c :: rest, acc =>
    if sep ≠ [] ∧ sep.isPrefixOf (c :: rest) then
      acc.reverse :: splitGo sep fuel (rest.drop (sep.length - 1)) []
    else
      splitGo sep fuel rest (c :: acc)

/-- String version of `splitGo`: the list of fields of `s` under the
literal separator `sep`. -/
def strSplitOn (s sep : String) : List String :=
  (splitGo sep.toList s.toList.length s.toList []).map List.asString

/-- Substring containment, as tested by `grep pat` on a single line: the
line splits into more than one field under separator `pat`. -/
def containsStr (l pat : String) : Bool :=
  decide (2 ≤ (strSplitOn l pat).length)

/-- Field `i` (1-based, as in awk dollar-variables) of line `l` under the
literal field separator `sep`; the empty string when the field does not
exist, as awk prints for an out-of-range field. -/
def awkField (sep : String) (i : Nat) (l : String) : String :=
  (strSplitOn l sep).getD (i - 1) ""

/-- Numeric value of a list of decimal digit characters. -/
def digitsToNat (ds : List Char) : Nat :=
  ds.foldl (fun a c => a * 10 + (c.toNat - 48)) 0

/-- Model of `strconv.ParseFloat(s, 64)` restricted to the decimal
fragment of the Go floating-point literal syntax (optional sign, decimal
digits with an optional fraction, optional decimal exponent), returning
the exact rational value; `none` is a syntax error. The hex, inf and nan
forms of the Go syntax never occur among the tokens the log pipeline can
emit and are omitted. No surrounding whitespace is accepted, as in Go. -/
def parseFloat? (s : String) : Option ℚ :=
  let cs0 := s.toList
  let sgn : ℚ := if cs0.head? = some '-' then -1 else 1
  let cs1 := if cs0.head? = some '-' ∨ cs0.head? = some '+' then cs0.tail else cs0
  let ip := cs1.takeWhile Char.isDigit
  let cs2 := cs1.dropWhile Char.isDigit
  let fp := if cs2.head? = some '.' then cs2.tail.takeWhile Char.isDigit else []
  let cs3 := if cs2.head? = some '.' then cs2.tail.dropWhile Char.isDigit else cs2
  if ip = [] ∧ fp = [] then none
  else
    let mant : ℚ := (digitsToNat ip : ℚ) + (digitsToNat fp : ℚ) / (10 : ℚ) ^ fp.length
    match cs3 with
    | [] => some (sgn * mant)
    | e :: rest =>
      if e = 'e' ∨ e = 'E' then
        let esgn : ℤ := if rest.head? = some '-' then -1 else 1
        let rest1 := if rest.head? = some '-' ∨ rest.head? = some '+' then rest.tail else rest
        if rest1 = [] ∨ ¬ rest1.all Char.isDigit then none
        else some (sgn * mant * (10 : ℚ) ^ (esgn * (digitsToNat rest1 : ℤ)))
      else none

/-- The awk stage chain of the filebeat status pipeline applied to one
log line: field 2 on separator harvester, then field 2 on separator
running, then field 2 on separator colon, then field 1 on separator
comma, then field 1 on separator closing brace. -/
def harvesterToken (l : String) : String :=
  awkField "\x7d" 1 (awkField "," 1 (awkField ":" 2 (awkField "running" 2 (awkField "harvester" 2 l))))

/-- Stdout lines of the bash pipeline in `checkFilebeatStatus`, as a
function of the journalctl log window (the last 100 lines of the
filebeat unit log): keep the lines containing monitoring, take the last
such line, apply the awk field chain, and drop empty lines (the final
grep -v of the empty pattern). -/
def filebeatPipeline (window : List String) : List String :=
  let monitored := window.filter (fun l => containsStr l "monitoring")
  let lastLine := match monitored.getLast? with
    | some l => [l]
    | none => []
  (lastLine.map harvesterToken).filter (fun l => l != "")

/-- Final status of a run of the filebeat status pipeline in which the
command itself started and finished without a go-cmd level error. -/
def healthyStatus (window : List String) (stderr : List String) : CmdStatus :=
  ⟨none, filebeatPipeline window, stderr⟩

/-- Embedding of `checkFilebeatStatus` (filebeat_process.go): start from
0.0; on a command error return it; on empty stdout return it (after
diagnostics, which carry no metric effect); otherwise parse the first
stdout line with ParseFloat and return the parsed value, which is 0 when
the parse fails, as ParseFloat returns 0 together with a syntax error. -/
def checkFilebeatStatus (finalStatus : CmdStatus) : ℚ :=
  let openFiles : ℚ := 0
  match finalStatus.error with
  | some _ => openFiles
  | none =>
    match finalStatus.stdout with
    | [] => openFiles
    | out0 :: _ => ((parseFloat? out0).getD 0 : ℚ)

/-- Embedding of `checkProcess` (filebeat_process.go): run pgrep with
the process name and report whether it exited successfully. -/
def checkProcess (run : RunEnv) (name : String) : Bool :=
  run ⟨"pgrep", [name]⟩

/-- Embedding of `checkSyslogProcess` (rsyslog_process.go): run pgrep
with the process name and report whether it exited successfully. -/
def checkSyslogProcess (run : RunEnv) (name : String) : Bool :=
  run ⟨"pgrep", [name]⟩

/-- Modelled from the spec: the external pgrep tool, absent from the
repository, queries the OS process table for any process whose command
name exactly matches the target name and exits successfully exactly when
at least one process matches; any failure (permission denial, tool
absent, zero matches) is a non-zero exit. Commands other than a pgrep
call with a single name argument are outside this model and fail. -/
def pgrepRun (table : ProcessTable) : RunEnv :=
  fun c =>
    c.prog == "pgrep" &&
      match c.args with
      | [n] => table.contains n
      | _ => false

/-- Metric descriptor, mirroring the fields of `prometheus.Desc` fixed
by `prometheus.NewDesc`: fully-qualified name, help text, ordered
variable label names (the const-label argument is nil at every call
site and omitted). -/
structure Desc where
  fqName : String
  help : String
  variableLabels : List String
deriving DecidableEq

/-- Metric value kinds of the prometheus client; only the gauge kind is
used by these collectors. -/
inductive ValueType
  | counterValue
  | gaugeValue
  | untypedValue
deriving DecidableEq

/-- A constructed constant metric as sent on the channel: descriptor,
value kind, numeric value and positional label values. -/
structure Metric where
  desc : Desc
  valueType : ValueType
  value : ℚ
  labelValues : List String
deriving DecidableEq

/-- Embedding of `prometheus.BuildFQName`: join the non-empty parts of
namespace, subsystem and name with underscores; empty name gives the
empty string. -/
def buildFQName (ns subsystem name : String) : String :=
  if name = "" then ""
  else if ns ≠ "" ∧ subsystem ≠ "" then ns ++ "_" ++ subsystem ++ "_" ++ name
  else if ns ≠ "" then ns ++ "_" ++ name
  else if subsystem ≠ "" then subsystem ++ "_" ++ name
  else name

/-- Modelled from the spec: the package-level `namespace` constant of
the enclosing collector package is not under src; the spec says the
namespace prefix is supplied externally and the README documents the
emitted metrics with the node prefix (node_filebeat_up etc.). -/
def collectorNamespace : String := "node"

/-- Embedding of `prometheus.MustNewConstMetric` at the call sites of
these collectors; at every call site the label value count equals the
descriptor label count, so the panic branch of the library function is
unreachable and the construction is total. -/
def mustNewConstMetric (desc : Desc) (vt : ValueType) (value : ℚ)
    (labelValues : List String) : Metric :=
  ⟨desc, vt, value, labelValues⟩

/-- Embedding of the `rsyslogProcessCollector` struct: the probe target
name and the logging handle, nothing else. -/
structure rsyslogProcessCollector where
  processName : String
  logger : Logger
deriving DecidableEq

/-- Embedding of `NewRsyslogProcessCollector`: fixes the process name
rsyslog and never fails (nil error). -/
def NewRsyslogProcessCollector (logger : Logger) :
    rsyslogProcessCollector × Option String :=
  ({ processName := "rsyslog", logger := logger }, none)

/-- Embedding of `(*rsyslogProcessCollector).Update`: build the up
descriptor, probe liveness with `checkSyslogProcess`, send one gauge
metric labelled with the process name, return a nil error. The returned
list is the channel send order. -/
def rsyslogProcessCollector.Update (c : rsyslogProcessCollector)
    (run : RunEnv) : List Metric × Option String :=
  let upDesc : Desc :=
    { fqName := buildFQName collectorNamespace c.processName "up"
      help := "Value is 1 if rsyslog process is \x27up\x27, 0 otherwise."
      variableLabels := ["process_name"] }
  let upValue : ℚ := if checkSyslogProcess run c.processName then 1 else 0
  ([mustNewConstMetric upDesc ValueType.gaugeValue upValue [c.processName]], none)

/-- Embedding of the `filebeatProcessCollector` struct: the probe target
name and the logging handle, nothing else. -/
structure filebeatProcessCollector where
  processName : String
  logger : Logger
deriving DecidableEq

/-- Embedding of `NewFilebeatProcessCollector`: fixes the process name
filebeat and never fails (nil error). -/
def NewFilebeatProcessCollector (logger : Logger) :
    filebeatProcessCollector × Option String :=
  ({ processName := "filebeat", logger := logger }, none)

/-- Embedding of `(*filebeatProcessCollector).Update`: build the up
descriptor, probe liveness with `checkProcess`, send the up gauge
labelled with the process name, then build the openfiles descriptor
(no labels), read the pipeline status with `checkFilebeatStatus` and
send the openfiles gauge; return a nil error. `finalStatus` is the
final status of the bash pipeline run this call performs. The returned
list is the channel send order. -/
def filebeatProcessCollector.Update (c : filebeatProcessCollector)
    (run : RunEnv) (finalStatus : CmdStatus) : List Metric × Option String :=
  let upDesc : Desc :=
    { fqName := buildFQName collectorNamespace c.processName "up"
      help := "Value is 1 if filebeat process is \x27up\x27, 0 otherwise."
      variableLabels := ["process_name"] }
  let upValue : ℚ := if checkProcess run c.processName then 1 else 0
  let upMetric := mustNewConstMetric upDesc ValueType.gaugeValue upValue [c.processName]
  let openfilesDesc : Desc :=
    { fqName := buildFQName collectorNamespace c.processName "openfiles"
      help := "Filebeat monitoring log harvester openfiles running."
      variableLabels := [] }
  let openfilesValue := checkFilebeatStatus finalStatus
  let openfilesMetric := mustNewConstMetric openfilesDesc ValueType.gaugeValue openfilesValue []
  ([upMetric, openfilesMetric], none)

/-- Value of the first metric an update sent, when any. -/
def firstValue (out : List Metric × Option String) : Option ℚ :=
  out.1.head?.map Metric.value

/-- Value of the last metric an update sent, when any. -/
def lastValue (out : List Metric × Option String) : Option ℚ :=
  out.1.getLast?.map Metric.value

/-- The decimal float parser rejects the empty string, so a token it
accepts is never empty. -/
lemma parseFloat_empty : parseFloat? "" = none := rfl

/-- A token that parses to a value is non-empty. -/
lemma parseFloat_some_ne_empty {t : String} {v : ℚ} (h : parseFloat? t = some v) :
    t ≠ "" := by
  intro he
  rw [he, parseFloat_empty] at h
  exact Option.noConfusion h

/-- C6: for every environment outcome (process query success or failure,
log read success or failure, parse success or failure), Update of the
rsyslog collector and Update of the filebeat collector return a nil
error; probe failures degrade to zero values and are never surfaced as a
returned error. -/
theorem claim_C6_update_never_errors (lg : Logger) (run : RunEnv) (st : CmdStatus) :
    ((NewRsyslogProcessCollector lg).1.Update run).2 = none
  ∧ ((NewFilebeatProcessCollector lg).1.Update run st).2 = none :=
  ⟨rfl, rfl⟩

/-- C9: checkProcess (filebeat) and checkSyslogProcess (rsyslog) are
extensionally equal: for every process name and every state of the
external execution environment both issue the same pgrep invocation with
the name and both return true exactly when that invocation exits
successfully. -/
theorem claim_C9_check_functions_equal (run : RunEnv) (name : String) :
    checkProcess run name = checkSyslogProcess run name
  ∧ checkProcess run name = run ⟨"pgrep", [name]⟩
  ∧ checkSyslogProcess run name = run ⟨"pgrep", [name]⟩ :=
  ⟨rfl, rfl, rfl⟩

/-- C7: against the pgrep model of the OS process table, the liveness
probe of either collector reports alive exactly when some process in
the table has a command name exactly equal to the target name. -/
theorem claim_C7_alive_iff_exact_match (table : ProcessTable) (name : String) :
    (checkProcess (pgrepRun table) name = true ↔ name ∈ table)
  ∧ (checkSyslogProcess (pgrepRun table) name = true ↔ name ∈ table) := by
  constructor <;>
    simp [checkProcess, checkSyslogProcess, pgrepRun, List.contains, List.elem_iff]

/-- C1: every Update of a liveness collector emits exactly one gauge
metric named <namespace>_<process>_up, carrying the single label
process_name whose value is the probed process name, with value 1 when
the process-table probe reports the process alive and 0 when it does
not; the value is always 0 or 1. -/
theorem claim_C1_up_gauge_shape (lg : Logger) (run : RunEnv) (st : CmdStatus) :
    ((((NewRsyslogProcessCollector lg).1.Update run).1.filter
        (fun m => m.desc.fqName == "node_rsyslog_up")).map
        (fun m => (m.valueType, m.desc.variableLabels, m.labelValues, m.value)))
      = [(ValueType.gaugeValue, ["process_name"], ["rsyslog"],
          if checkSyslogProcess run "rsyslog" then (1 : ℚ) else 0)]
  ∧ ((((NewFilebeatProcessCollector lg).1.Update run st).1.filter
        (fun m => m.desc.fqName == "node_filebeat_up")).map
        (fun m => (m.valueType, m.desc.variableLabels, m.labelValues, m.value)))
      = [(ValueType.gaugeValue, ["process_name"], ["filebeat"],
          if checkProcess run "filebeat" then (1 : ℚ) else 0)]
  ∧ ((if checkSyslogProcess run "rsyslog" then (1 : ℚ) else 0) = 0
      ∨ (if checkSyslogProcess run "rsyslog" then (1 : ℚ) else 0) = 1)
  ∧ ((if checkProcess run "filebeat" then (1 : ℚ) else 0) = 0
      ∨ (if checkProcess run "filebeat" then (1 : ℚ) else 0) = 1) := by
  cases hR : checkSyslogProcess run "rsyslog" <;>
    cases hF : checkProcess run "filebeat" <;>
      refine ⟨?_, ?_, ?_, ?_⟩ <;>
        simp +decide [NewRsyslogProcessCollector, NewFilebeatProcessCollector,
          rsyslogProcessCollector.Update, filebeatProcessCollector.Update,
          mustNewConstMetric, buildFQName, collectorNamespace, hR, hF]

/-- C10: every Update of the filebeat collector sends exactly two
metrics in a fixed order, first the up gauge then the openfiles gauge;
every Update of the rsyslog collector sends exactly one metric, the up
gauge; and each emitted metric carries as many label values as its
descriptor has label names (one for up, zero for openfiles). -/
theorem claim_C10_emission_counts (lg : Logger) (run : RunEnv) (st : CmdStatus) :
    (((NewFilebeatProcessCollector lg).1.Update run st).1.map
        (fun m => (m.desc.fqName, m.labelValues.length, m.desc.variableLabels.length)))
      = [("node_filebeat_up", 1, 1), ("node_filebeat_openfiles", 0, 0)]
  ∧ (((NewRsyslogProcessCollector lg).1.Update run).1.map
        (fun m => (m.desc.fqName, m.labelValues.length, m.desc.variableLabels.length)))
      = [("node_rsyslog_up", 1, 1)] := by
  constructor <;>
    simp +decide [NewRsyslogProcessCollector, NewFilebeatProcessCollector,
      rsyslogProcessCollector.Update, filebeatProcessCollector.Update,
      mustNewConstMetric, buildFQName, collectorNamespace]

/-- C4: whenever the underlying pgrep invocation for a collector's
process name exits unsuccessfully — permission denial, tool absent or
zero matches are indistinguishable in its exit status — the liveness
probe reports not alive and the emitted up gauge value is 0. -/
theorem claim_C4_query_failure_gives_zero (lg : Logger) (run : RunEnv)
    (st : CmdStatus) (n₁ n₂ : String)
    (h₁ : run ⟨"pgrep", [n₁]⟩ = false)
    (h₂ : run ⟨"pgrep", [n₂]⟩ = false) :
    firstValue (rsyslogProcessCollector.Update ⟨n₁, lg⟩ run) = some 0
  ∧ firstValue (filebeatProcessCollector.Update ⟨n₂, lg⟩ run st) = some 0 := by
  constructor <;>
    simp [rsyslogProcessCollector.Update, filebeatProcessCollector.Update,
      checkSyslogProcess, checkProcess, firstValue, mustNewConstMetric, h₁, h₂]

/-- C4 witness: a concrete environment in which every command fails
yields up gauge value 0 for both collectors. -/
theorem claim_C4_witness :
    firstValue (rsyslogProcessCollector.Update ⟨"rsyslog", ⟨⟩⟩ (fun _ => false)) = some 0
  ∧ firstValue (filebeatProcessCollector.Update ⟨"filebeat", ⟨⟩⟩ (fun _ => false)
      ⟨none, [], []⟩) = some 0 :=
  claim_C4_query_failure_gives_zero ⟨⟩ (fun _ => false) ⟨none, [], []⟩
    "rsyslog" "filebeat" rfl rfl

/-- C8: a collector instance consists of nothing but its probe target
name and logging handle, and Update is a function of that instance and
of the current probe outcomes alone; hence two Update calls whose
process-table probe answers differ emit different up gauge values — no
memoization across scrapes. -/
theorem claim_C8_stateless_no_caching (c : rsyslogProcessCollector)
    (cf : filebeatProcessCollector) (run₁ run₂ : RunEnv) (st₁ st₂ : CmdStatus) :
    c = ⟨c.processName, c.logger⟩
  ∧ cf = ⟨cf.processName, cf.logger⟩
  ∧ (checkSyslogProcess run₁ c.processName ≠ checkSyslogProcess run₂ c.processName →
      firstValue (c.Update run₁) ≠ firstValue (c.Update run₂))
  ∧ (checkProcess run₁ cf.processName ≠ checkProcess run₂ cf.processName →
      firstValue (cf.Update run₁ st₁) ≠ firstValue (cf.Update run₂ st₂)) := by
  refine ⟨rfl, rfl, ?_, ?_⟩ <;>
    · intro hne
      cases h₁ : checkSyslogProcess run₁ c.processName <;>
        cases h₂ : checkSyslogProcess run₂ c.processName <;>
          cases g₁ : checkProcess run₁ cf.processName <;>
            cases g₂ : checkProcess run₂ cf.processName <;>
              simp_all [rsyslogProcessCollector.Update, filebeatProcessCollector.Update,
                firstValue, mustNewConstMetric]

/-- C8 witness: a probe answering alive on the first call and not alive
on the second yields two different up gauge values. -/
theorem claim_C8_witness :
    firstValue (rsyslogProcessCollector.Update ⟨"rsyslog", ⟨⟩⟩ (fun _ => true))
  ≠ firstValue (rsyslogProcessCollector.Update ⟨"rsyslog", ⟨⟩⟩ (fun _ => false)) :=
  (claim_C8_stateless_no_caching ⟨"rsyslog", ⟨⟩⟩ ⟨"filebeat", ⟨⟩⟩
    (fun _ => true) (fun _ => false) ⟨none, [], []⟩ ⟨none, [], []⟩).2.2.1 (by decide)

/-- C2: when the journalctl window contains at least one monitoring
status line and the harvester running token extracted from the last such
line parses as a number, the filebeat openfiles extraction returns
exactly that number; the line used is the last matching one, not the
first. -/
theorem claim_C2_extraction_happy_path (window stderr : List String)
    (l : String) (v : ℚ)
    (hlast : (window.filter (fun s => containsStr s "monitoring")).getLast? = some l)
    (hparse : parseFloat? (harvesterToken l) = some v) :
    checkFilebeatStatus (healthyStatus window stderr) = v := by
  have htok : harvesterToken l ≠ "" := parseFloat_some_ne_empty hparse
  simp [checkFilebeatStatus, healthyStatus, filebeatPipeline, hlast, htok, hparse]

/-- C2 witness: a window holding two monitoring lines, running 3 in the
earlier one and running 7 in the last one, extracts 7. -/
theorem claim_C2_witness :
    checkFilebeatStatus (healthyStatus
      ["alpha monitoring harvester running:3, rest",
       "beta not a status line",
       "gamma monitoring harvester running:7, rest"] []) = 7 :=
  claim_C2_extraction_happy_path _ _ "gamma monitoring harvester running:7, rest" 7
    (by decide)
    (by simp +decide [parseFloat?, digitsToNat, harvesterToken, awkField, strSplitOn, splitGo])

/-- C3: when the log pipeline yields a non-empty extracted token that
fails to parse as a number, the extraction returns 0, the emitted
openfiles gauge value is 0, and Update returns a nil error; the
malformed token is discarded. -/
theorem claim_C3_malformed_token_gives_zero (lg : Logger) (run : RunEnv)
    (window stderr : List String) (t : String)
    (hpipe : filebeatPipeline window = [t])
    (hbad : parseFloat? t = none) :
    checkFilebeatStatus (healthyStatus window stderr) = 0
  ∧ lastValue ((NewFilebeatProcessCollector lg).1.Update run
      (healthyStatus window stderr)) = some 0
  ∧ ((NewFilebeatProcessCollector lg).1.Update run
      (healthyStatus window stderr)).2 = none := by
  have hval : checkFilebeatStatus (healthyStatus window stderr) = 0 := by
    simp [checkFilebeatStatus, healthyStatus, hpipe, hbad]
  refine ⟨hval, ?_, rfl⟩
  simp [NewFilebeatProcessCollector, filebeatProcessCollector.Update,
    lastValue, mustNewConstMetric, hval]

/-- C3 witness: a monitoring line whose running field holds the
non-numeric token abc makes the extraction return 0 while Update
reports no error. -/
theorem claim_C3_witness :
    checkFilebeatStatus (healthyStatus
      ["only monitoring harvester running:abc, rest"] []) = 0
  ∧ lastValue ((NewFilebeatProcessCollector ⟨⟩).1.Update (fun _ => false)
      (healthyStatus ["only monitoring harvester running:abc, rest"] [])) = some 0
  ∧ ((NewFilebeatProcessCollector ⟨⟩).1.Update (fun _ => false)
      (healthyStatus ["only monitoring harvester running:abc, rest"] [])).2 = none :=
  claim_C3_malformed_token_gives_zero ⟨⟩ (fun _ => false)
    ["only monitoring harvester running:abc, rest"] [] "abc" (by decide) (by decide)

/-- C5: when the pipeline command itself errors, or when the window
holds no monitoring status line so the pipeline output is empty, the
extraction returns 0, the emitted openfiles gauge value is 0, and
Update returns a nil error. -/
theorem claim_C5_read_failure_gives_zero (lg : Logger) (run : RunEnv)
    (st : CmdStatus) (e : String) (window stderr : List String) :
    (st.error = some e → checkFilebeatStatus st = 0)
  ∧ (st.error = some e →
      lastValue ((NewFilebeatProcessCollector lg).1.Update run st) = some 0)
  ∧ (window.filter (fun s => containsStr s "monitoring") = [] →
      checkFilebeatStatus (healthyStatus window stderr) = 0)
  ∧ (window.filter (fun s => containsStr s "monitoring") = [] →
      lastValue ((NewFilebeatProcessCollector lg).1.Update run
        (healthyStatus window stderr)) = some 0)
  ∧ ((NewFilebeatProcessCollector lg).1.Update run st).2 = none := by
  have herr : st.error = some e → checkFilebeatStatus st = 0 := by
    intro h
    simp [checkFilebeatStatus, h]
  have hemp : window.filter (fun s => containsStr s "monitoring") = [] →
      checkFilebeatStatus (healthyStatus window stderr) = 0 := by
    intro h
    simp [checkFilebeatStatus, healthyStatus, filebeatPipeline, h]
  refine ⟨herr, ?_, hemp, ?_, rfl⟩
  · intro h
    simp [NewFilebeatProcessCollector, filebeatProcessCollector.Update,
      lastValue, mustNewConstMetric, herr h]
  · intro h
    simp [NewFilebeatProcessCollector, filebeatProcessCollector.Update,
      lastValue, mustNewConstMetric, hemp h]

/-- C5 witness: a failed command run and a window with no monitoring
line both produce openfiles value 0 and a nil Update error. -/
theorem claim_C5_witness :
    checkFilebeatStatus ⟨some "exit status 1", [], []⟩ = 0
  ∧ lastValue ((NewFilebeatProcessCollector ⟨⟩).1.Update (fun _ => false)
      ⟨some "exit status 1", [], []⟩) = some 0
  ∧ checkFilebeatStatus (healthyStatus ["no status lines here"] []) = 0
  ∧ ((NewFilebeatProcessCollector ⟨⟩).1.Update (fun _ => false)
      ⟨some "exit status 1", [], []⟩).2 = none :=
  ⟨(claim_C5_read_failure_gives_zero ⟨⟩ (fun _ => false) ⟨some "exit status 1", [], []⟩
      "exit status 1" ["no status lines here"] []).1 rfl,
   (claim_C5_read_failure_gives_zero ⟨⟩ (fun _ => false) ⟨some "exit status 1", [], []⟩
      "exit status 1" ["no status lines here"] []).2.1 rfl,
   (claim_C5_read_failure_gives_zero ⟨⟩ (fun _ => false) ⟨some "exit status 1", [], []⟩
      "exit status 1" ["no status lines here"] []).2.2.1 (by decide),
   (claim_C5_read_failure_gives_zero ⟨⟩ (fun _ => false) ⟨some "exit status 1", [], []⟩
      "exit status 1" ["no status lines here"] []).2.2.2.2⟩
